import Mathlib

/-
Verification of the authentication core of the Rag_with_jwt_task backend:
token issuance/verification/refresh (app/auth/jwt_handler.py), the JWT
middleware gate (app/middleware.py), login and credential checking
(app/auth/auth_utils.py, app/routers/auth.py), and the user-record
redaction paths (app/services/database.py, app/routers/users.py).

Times are modelled as integer epoch seconds.  A signed token is modelled
as its claim set plus the key it was signed with; signature verification
against a secret succeeds exactly when the keys coincide.
-/

namespace RagJwt

/-- An HTTP error as raised through FastAPI HTTPException: a status code
and a detail string.  The detail strings are the caller-visible error
kinds. -/
structure HTTPError where
  statusCode : Nat
  detail : String
deriving DecidableEq, Repr

/-- A JWT claim set: optional subject, optional expiry (epoch seconds),
optional issued-at, plus any further claims as a key-value list. -/
structure Claims where
  sub : Option String
  exp : Option Int
  iat : Option Int
  extra : List (String × String)
deriving DecidableEq, Repr

/-- A signed token: the encoded claim set together with the key used to
sign it.  Verification against a secret succeeds iff the keys agree. -/
structure Token where
  claims : Claims
  key : String
deriving DecidableEq, Repr

/-- Errors raised by the jose library during decode.  ExpiredSignatureError
is a subclass of JWTError in jose, so an `except JWTError` handler catches
both constructors. -/
inductive JoseError
  | jwtGeneric
  | expiredSignature
deriving DecidableEq, Repr

/-- Model of jose.jwt.decode(token, secret_key, algorithms=[...]) with its
default options: the signature is checked against the key, and when an exp
claim is present it is compared against the current time, raising
ExpiredSignatureError when exp is strictly in the past.  A missing exp is
not checked by jose. -/
def joseDecode (secretKey : String) (tok : Token) (now : Int) : Except JoseError Claims :=
  if tok.key == secretKey then
    match tok.claims.exp with
    | some e => if e < now then .error .expiredSignature else .ok tok.claims
    | none => .ok tok.claims
  else .error .jwtGeneric

/-- The 401 raised by JWTHandler.verify_token for a missing sub claim and
by its `except JWTError` handler. -/
def invalidCredentialsError : HTTPError :=
  ⟨401, "Invalid authentication credentials"⟩

/-- The 401 raised by the explicit expiry branch of JWTHandler.verify_token. -/
def tokenExpiredError : HTTPError :=
  ⟨401, "Token expired"⟩

/-- JWTHandler.verify_token (app/auth/jwt_handler.py lines 39-72): decode
via jose (any JoseError, including ExpiredSignatureError, is caught by the
`except JWTError` handler and becomes the generic invalid-credentials 401);
then reject a missing sub claim; then the explicit expiry branch fires when
exp is absent or strictly in the past; otherwise the payload is returned
unmodified. -/
def verify_token (secretKey : String) (tok : Token) (now : Int) : Except HTTPError Claims :=
  match joseDecode secretKey tok now with
  | .error _ => .error invalidCredentialsError
  | .ok payload =>
    match payload.sub with
    | none => .error invalidCredentialsError
    | some _ =>
      match payload.exp with
      | none => .error tokenExpiredError
      | some e => if now > e then .error tokenExpiredError else .ok payload

/-- settings.access_token_expire_minutes (app/config.py), default 30. -/
def accessTokenExpireMinutes : Int := 30

/-- JWTHandler.create_access_token (app/auth/jwt_handler.py lines 16-37):
copy the input claims, overwrite exp with now plus the requested delta
(default: the configured expiry minutes) and iat with now, and sign with
the configured secret.  The delta is in seconds. -/
def create_access_token (secretKey : String) (data : Claims) (now : Int)
    (expiresDelta : Option Int) : Token :=
  let expire := now + expiresDelta.getD (accessTokenExpireMinutes * 60)
  ⟨{ data with exp := some expire, iat := some now }, secretKey⟩

/-- The 401 raised by the `except Exception` handler of
JWTHandler.refresh_token. -/
def refreshError : HTTPError := ⟨401, "Could not refresh token"⟩

/-- JWTHandler.refresh_token (app/auth/jwt_handler.py lines 74-85): verify
the token, build a fresh payload holding only the sub claim, and reissue.
The surrounding `except Exception` also catches the HTTPException raised
by verify_token, so every failure is re-raised as the single 401
"Could not refresh token". -/
def refresh_token (secretKey : String) (tok : Token) (now : Int) : Except HTTPError Token :=
  match verify_token secretKey tok now with
  | .error _ => .error refreshError
  | .ok payload => .ok (create_access_token secretKey ⟨payload.sub, none, none, []⟩ now none)

/-- Outcome of JWTMiddleware.dispatch: pass the request on untouched,
short-circuit with an error response, or pass it on with the verified
identity attached to request state. -/
inductive DispatchResult
  | passNext
  | rejected (e : HTTPError)
  | passNextWithState (user : Option String) (payload : Claims)
deriving DecidableEq, Repr

/-- An inbound HTTP request as seen by the middleware: its path and the
raw Authorization header, if any. -/
structure Request where
  path : String
  authorization : Option String
deriving DecidableEq, Repr

/-- The default protected path set of JWTMiddleware (app/middleware.py
lines 16-21). -/
def defaultProtectedPaths : List String :=
  ["/users", "/admin", "/protected", "/chat"]

/-- The excluded path set of JWTMiddleware (app/middleware.py lines
23-30). -/
def defaultExcludedPaths : List String :=
  ["/auth/token", "/auth/register", "/docs", "/redoc", "/openapi.json", "/health"]

/-- Python str.startswith on unicode strings: the candidate is a prefix of
the character sequence. -/
def strStartsWith (s pre : String) : Bool :=
  pre.data.isPrefixOf s.data

/-- The 401 returned by the middleware for a missing or malformed
Authorization header. -/
def missingAuthHeaderError : HTTPError :=
  ⟨401, "Missing or invalid authorization header"⟩

/-- JWTMiddleware.dispatch (app/middleware.py lines 32-80), parametric in
the verifier it delegates to (jwt_handler.verify_token on the raw token
string): excluded paths are checked first and pass straight through; then
paths matching no protected path pass through; otherwise the Bearer header
is required, the token is the second space-separated component, and the
verification outcome decides between rejection and continuing with the
identity attached. -/
def dispatch (protectedPaths excludedPaths : List String)
    (verifyFn : String → Except HTTPError Claims) (req : Request) : DispatchResult :=
  let path := req.path
  if excludedPaths.any (fun ex => strStartsWith path ex) then .passNext
  else if !(protectedPaths.any (fun p => strStartsWith path p)) then .passNext
  else
    match req.authorization with
    | none => .rejected missingAuthHeaderError
    | some authorization =>
      if !(strStartsWith authorization "Bearer ") then .rejected missingAuthHeaderError
      else
        let token := (authorization.splitOn " ").getD 1 ""
        match verifyFn token with
        | .ok payload => .passNextWithState payload.sub payload
        | .error e => .rejected e

/-- A value stored in a user document field. -/
inductive Value
  | str (s : String)
  | bool (b : Bool)
  | int (n : Int)
deriving DecidableEq, Repr

/-- A user document from the users collection: a key-value field list
(username, password hash, is_admin, ...). -/
abbrev UserDoc : Type := List (String × Value)

/-- database.get_user_by_username (app/services/database.py lines 42-46):
find_one on the username field. -/
def find_by_username (db : List UserDoc) (username : String) : Option UserDoc :=
  db.find? (fun doc => doc.lookup "username" == some (Value.str username))

/-- database.get_all_users (app/services/database.py lines 57-62): find
with the projection excluding the password field. -/
def get_all_users (db : List UserDoc) : List UserDoc :=
  db.map (fun doc => doc.filter (fun kv => kv.1 != "password"))

/-- The credentials_exception of get_current_user
(app/auth/auth_utils.py lines 60-64). -/
def credentialsException : HTTPError :=
  ⟨401, "Could not validate credentials"⟩

/-- get_current_user (app/auth/auth_utils.py lines 58-88): verify the
token (an HTTPException raised by verify_token is re-raised unchanged by
the `except HTTPException: raise` arm), reject a missing sub, look the
subject up in the user directory and reject when absent, and return the
record with the password field removed. -/
def get_current_user (secretKey : String) (db : List UserDoc) (tok : Token)
    (now : Int) : Except HTTPError UserDoc :=
  match verify_token secretKey tok now with
  | .error e => .error e
  | .ok payload =>
    match payload.sub with
    | none => .error credentialsException
    | some username =>
      match find_by_username db username with
      | none => .error credentialsException
      | some user => .ok (user.filter (fun kv => kv.1 != "password"))

/-- The 404 raised by get_user_by_username_endpoint when no record
exists. -/
def userNotFoundError (username : String) : HTTPError :=
  ⟨404, "User \x27" ++ username ++ "\x27 not found"⟩

/-- get_user_by_username_endpoint (app/routers/users.py lines 50-76,
body after the admin dependency): look the user up, 404 when absent,
otherwise return the record with the password field removed. -/
def get_user_by_username_endpoint (db : List UserDoc) (username : String) :
    Except HTTPError UserDoc :=
  match find_by_username db username with
  | none => .error (userNotFoundError username)
  | some user => .ok (user.filter (fun kv => kv.1 != "password"))

/-- The 403 raised by get_current_admin_user (app/auth/auth_utils.py
lines 94-97). -/
def adminForbiddenError : HTTPError :=
  ⟨403, "Not enough permissions. Admin access required."⟩

/-- Python truthiness of a field value, as used by
`not current_user.get("is_admin", False)`. -/
def truthy : Value → Bool
  | .bool b => b
  | .str s => s != ""
  | .int n => n != 0

/-- get_current_admin_user (app/auth/auth_utils.py lines 91-98), the
Access Policy admin check on an identity dict: reject with 403 unless the
username field equals "admin" or the is_admin field (defaulting to False
when absent) is truthy. -/
def get_current_admin_user (current_user : UserDoc) : Except HTTPError UserDoc :=
  if current_user.lookup "username" != some (Value.str "admin")
      && !(truthy ((current_user.lookup "is_admin").getD (Value.bool false))) then
    .error adminForbiddenError
  else .ok current_user

/-- Result of a call into passlib CryptContext.verify: a boolean, or an
exception escaping the call. -/
inductive PasslibResult
  | ok (b : Bool)
  | raised
deriving DecidableEq, Repr

/-- passlib identifies a candidate bcrypt hash by its scheme tag; a string
starting with none of the bcrypt tags is not identified by the configured
schemes. -/
def bcryptIdentify (hashed : String) : Bool :=
  ["$2$", "$2a$", "$2b$", "$2x$", "$2y$"].any (fun tag => strStartsWith hashed tag)

/-- AuthUtils.verify_password (app/auth/auth_utils.py lines 17-20), which
is pwd_context.verify(plain, hashed) with no exception handling:
CryptContext.verify raises UnknownHashError when no configured scheme
identifies the hash string, and otherwise returns the comparison outcome.
The bcrypt comparison itself is abstracted as `bcryptMatches`. -/
def verify_password (bcryptMatches : String → String → Bool) (plain hashed : String) :
    PasslibResult :=
  if bcryptIdentify hashed then .ok (bcryptMatches plain hashed) else .raised

/-- AuthUtils.authenticate_user (app/auth/auth_utils.py lines 27-45):
returns False (here: none) when the user is absent, when the password does
not verify, and — via the `except Exception` arm — when verify_password
raises. -/
def authenticate_user (bcryptMatches : String → String → Bool) (db : List UserDoc)
    (username password : String) : Option UserDoc :=
  match find_by_username db username with
  | none => none
  | some user =>
    match user.lookup "password" with
    | some (Value.str hashed) =>
      match verify_password bcryptMatches password hashed with
      | .ok true => some user
      | .ok false => none
      | .raised => none
    | _ => none

/-- The response model of the /auth/token endpoint. -/
structure TokenResponse where
  access_token : Token
  token_type : String
  expires_in : Int
deriving DecidableEq, Repr

/-- The generic 401 of the login endpoint (app/routers/auth.py lines
66-70). -/
def incorrectCredentialsError : HTTPError :=
  ⟨401, "Incorrect username or password"⟩

/-- The 500 of the login endpoint's outer handler. -/
def loginFailedError : HTTPError := ⟨500, "Login failed"⟩

/-- login (app/routers/auth.py lines 57-96): authenticate, answer the
generic 401 on any authentication failure, otherwise issue a token for
the stored username with the configured expiry. -/
def login (bcryptMatches : String → String → Bool) (db : List UserDoc)
    (secretKey : String) (now : Int) (username password : String) :
    Except HTTPError TokenResponse :=
  match authenticate_user bcryptMatches db username password with
  | none => .error incorrectCredentialsError
  | some user =>
    match user.lookup "username" with
    | some (Value.str un) =>
      .ok ⟨create_access_token secretKey ⟨some un, none, none, []⟩ now
            (some (accessTokenExpireMinutes * 60)),
          "bearer", accessTokenExpireMinutes * 60⟩
    | _ => .error loginFailedError

/-- joseDecode only ever succeeds with the claim set carried by the token
itself. -/
theorem joseDecode_ok_claims (secretKey : String) (tok : Token) (now : Int)
    (p : Claims) (h : joseDecode secretKey tok now = .ok p) : p = tok.claims := by
  unfold joseDecode at h
  split at h
  · split at h
    · split at h
      · exact absurd h (by simp)
      · injection h with h
        exact h.symm
    · injection h with h
      exact h.symm
  · exact absurd h (by simp)

/-- verify_token only ever succeeds with the claim set carried by the
token itself. -/
theorem verify_token_ok_claims (secretKey : String) (tok : Token) (now : Int)
    (p : Claims) (h : verify_token secretKey tok now = .ok p) : p = tok.claims := by
  unfold verify_token at h
  cases hj : joseDecode secretKey tok now with
  | error e =>
    rw [hj] at h
    exact absurd h (by simp)
  | ok q =>
    rw [hj] at h
    dsimp only at h
    have hq := joseDecode_ok_claims secretKey tok now q hj
    cases hs : q.sub with
    | none =>
      rw [hs] at h
      exact absurd h (by simp)
    | some u =>
      rw [hs] at h
      dsimp only at h
      cases he : q.exp with
      | none =>
        rw [he] at h
        exact absurd h (by simp)
      | some e =>
        rw [he] at h
        dsimp only at h
        by_cases hgt : now > e
        · rw [if_pos hgt] at h
          exact absurd h (by simp)
        · rw [if_neg hgt] at h
          injection h with h
          exact h.symm ▸ hq

/-- Looking up a key in a list from which that key has been filtered out
yields nothing. -/
theorem lookup_filter_ne (l : List (String × Value)) (key : String) :
    (l.filter (fun kv => kv.1 != key)).lookup key = none := by
  induction l with
  | nil => rfl
  | cons hd tl ih =>
    obtain ⟨k, v⟩ := hd
    by_cases h : k = key
    · simp [List.filter_cons, h, ih]
    · have hkk : (key == k) = false := beq_eq_false_iff_ne.mpr (Ne.symm h)
      simp [List.filter_cons, List.lookup, h, hkk, ih]

/-- C1: a token with a valid signature whose expires_at has elapsed fails
verification, but with the generic invalid-credentials 401, not the
distinct expired-token 401: jose raises ExpiredSignatureError (a JWTError
subclass) inside jwt.decode, and the `except JWTError` handler converts it
to the invalid-credentials response, so the dedicated "Token expired"
branch of verify_token never fires for an elapsed expiry.  The claim that
expiry surfaces as a distinct ExpiredTokenError fails on this input. -/
theorem c1_expired_token_gets_invalid_credentials_detail :
    verify_token "secret" ⟨⟨some "alice", some 1000, some 900, []⟩, "secret"⟩ 1001
      = .error invalidCredentialsError
    ∧ invalidCredentialsError ≠ tokenExpiredError :=
  ⟨rfl, by decide⟩

/-- C2: issuing a token for any subject and immediately verifying it (at
the same clock, with any nonnegative expiry delta, including the default)
succeeds and returns a claim set whose subject equals the original
input. -/
theorem c2_issue_then_verify_subject (secretKey username : String) (now : Int)
    (e0 i0 : Option Int) (extra : List (String × String)) (ttl : Option Int)
    (h : 0 ≤ ttl.getD (accessTokenExpireMinutes * 60)) :
    ∃ payload,
      verify_token secretKey
          (create_access_token secretKey ⟨some username, e0, i0, extra⟩ now ttl) now
        = .ok payload
      ∧ payload.sub = some username := by
  refine ⟨⟨some username, some (now + ttl.getD (accessTokenExpireMinutes * 60)),
    some now, extra⟩, ?_, rfl⟩
  have h1 : ¬ (now + ttl.getD (accessTokenExpireMinutes * 60) < now) := by omega
  have h2 : ¬ (now > now + ttl.getD (accessTokenExpireMinutes * 60)) := by omega
  simp [verify_token, joseDecode, create_access_token, h1, h2]

/-- Witness for C2 at a concrete input. -/
theorem c2_issue_then_verify_subject_witness :
    0 ≤ (none : Option Int).getD (accessTokenExpireMinutes * 60)
    ∧ ∃ payload,
        verify_token "s" (create_access_token "s" ⟨some "alice", none, none, []⟩ 0 none) 0
          = .ok payload
        ∧ payload.sub = some "alice" :=
  ⟨by decide, c2_issue_then_verify_subject "s" "alice" 0 none none [] none (by decide)⟩

/-- C3: the middleware evaluates excluded prefixes before protected ones —
any request whose path starts with an excluded prefix passes through with
no token check at all (for every verifier and every Authorization header,
including none), and a request matching neither set also passes through
untouched with no identity attached. -/
theorem c3_gate_excluded_before_protected (protectedPaths excludedPaths : List String)
    (verifyFn : String → Except HTTPError Claims) (req : Request) :
    (excludedPaths.any (fun ex => strStartsWith req.path ex) = true →
      dispatch protectedPaths excludedPaths verifyFn req = .passNext)
    ∧ (excludedPaths.any (fun ex => strStartsWith req.path ex) = false →
       protectedPaths.any (fun p => strStartsWith req.path p) = false →
       dispatch protectedPaths excludedPaths verifyFn req = .passNext) := by
  constructor
  · intro h
    simp [dispatch, h]
  · intro h1 h2
    simp [dispatch, h1, h2]

/-- Witness for C3: /auth/token (excluded) with no header and with a
rejecting verifier passes through, as does an unmatched path. -/
theorem c3_gate_excluded_before_protected_witness :
    dispatch defaultProtectedPaths defaultExcludedPaths
        (fun _ => .error invalidCredentialsError) ⟨"/auth/token", none⟩ = .passNext
    ∧ dispatch defaultProtectedPaths defaultExcludedPaths
        (fun _ => .error invalidCredentialsError) ⟨"/ping", none⟩ = .passNext :=
  ⟨(c3_gate_excluded_before_protected defaultProtectedPaths defaultExcludedPaths
      (fun _ => .error invalidCredentialsError) ⟨"/auth/token", none⟩).1 (by decide),
   (c3_gate_excluded_before_protected defaultProtectedPaths defaultExcludedPaths
      (fun _ => .error invalidCredentialsError) ⟨"/ping", none⟩).2 (by decide) (by decide)⟩

/-- C4 counterexample: a correctly signed token carrying a subject but no
expires_at claim fails with the expired-token 401 ("Token expired"), not
the invalid-credentials 401 the claim requires for a missing expires_at:
jose does not check a missing exp, and verify_token's own branch lumps
`exp is None` together with elapsed expiry. -/
theorem c4_counterexample_missing_exp_is_expired :
    verify_token "secret" ⟨⟨some "alice", none, none, []⟩, "secret"⟩ 0
      = .error tokenExpiredError
    ∧ tokenExpiredError ≠ invalidCredentialsError :=
  ⟨rfl, by decide⟩

/-- C4 (amended): verification fails with the invalid-credentials error
whenever the signature does not verify against the configured secret or
whenever the subject claim is absent; a correctly signed token with a
subject but no expires_at claim instead fails with the expired-token
error. -/
theorem c4_invalid_token_cases (secretKey : String) (tok : Token) (now : Int) :
    (tok.key ≠ secretKey →
      verify_token secretKey tok now = .error invalidCredentialsError)
    ∧ (tok.claims.sub = none →
      verify_token secretKey tok now = .error invalidCredentialsError)
    ∧ (tok.key = secretKey → tok.claims.sub ≠ none → tok.claims.exp = none →
      verify_token secretKey tok now = .error tokenExpiredError) := by
  refine ⟨?_, ?_, ?_⟩
  · intro h
    have hk : (tok.key == secretKey) = false := by simpa using h
    simp [verify_token, joseDecode, hk]
  · intro hsub
    cases hj : joseDecode secretKey tok now with
    | error e => simp [verify_token, hj]
    | ok p =>
      have hp := joseDecode_ok_claims secretKey tok now p hj
      simp [verify_token, hj, hp, hsub]
  · intro hk hsub hexp
    obtain ⟨u, hu⟩ := Option.ne_none_iff_exists'.mp hsub
    simp [verify_token, joseDecode, hk, hexp, hu]

/-- Witness for C4 (amended) at concrete inputs: a token signed with a
different secret, a token without a subject, and a signed token without an
expires_at claim. -/
theorem c4_invalid_token_cases_witness :
    verify_token "s" ⟨⟨some "alice", some 100, none, []⟩, "other"⟩ 0
      = .error invalidCredentialsError
    ∧ verify_token "s" ⟨⟨none, some 100, none, []⟩, "s"⟩ 0
      = .error invalidCredentialsError
    ∧ verify_token "s" ⟨⟨some "alice", none, none, []⟩, "s"⟩ 0
      = .error tokenExpiredError :=
  ⟨(c4_invalid_token_cases "s" ⟨⟨some "alice", some 100, none, []⟩, "other"⟩ 0).1 (by decide),
   (c4_invalid_token_cases "s" ⟨⟨none, some 100, none, []⟩, "s"⟩ 0).2.1 rfl,
   (c4_invalid_token_cases "s" ⟨⟨some "alice", none, none, []⟩, "s"⟩ 0).2.2 rfl
     (by decide) rfl⟩

/-- C5 counterexample: on an invalid input token, verify fails with the
invalid-credentials 401 while refresh fails with the distinct 401
"Could not refresh token": refresh_token's `except Exception` catches the
HTTPException raised by verify_token and re-raises the single refresh
error, so refresh does not fail with the same error kinds as verify. -/
theorem c5_counterexample_refresh_collapses_error_kinds :
    refresh_token "secret" ⟨⟨some "alice", some 100, none, []⟩, "other"⟩ 0
      = .error refreshError
    ∧ verify_token "secret" ⟨⟨some "alice", some 100, none, []⟩, "other"⟩ 0
      = .error invalidCredentialsError
    ∧ refreshError ≠ invalidCredentialsError :=
  ⟨rfl, rfl, by decide⟩

/-- C5 (amended): on a valid token, refresh is verify followed by issue
using only the subject claim — the new token carries exactly the original
subject, a fresh expiry and issued-at, and no other claims; on any failing
input (invalid or expired alike) refresh fails with the single refresh
error rather than verify's distinct error kinds. -/
theorem c5_refresh_minimal_trust (secretKey : String) (tok : Token) (now : Int) :
    (∀ payload, verify_token secretKey tok now = .ok payload →
      refresh_token secretKey tok now
        = .ok ⟨⟨tok.claims.sub, some (now + accessTokenExpireMinutes * 60),
            some now, []⟩, secretKey⟩)
    ∧ (∀ e, verify_token secretKey tok now = .error e →
      refresh_token secretKey tok now = .error refreshError) := by
  constructor
  · intro payload h
    have hp := verify_token_ok_claims secretKey tok now payload h
    simp [refresh_token, h, hp, create_access_token]
  · intro e h
    simp [refresh_token, h]

/-- Witness for C5 (amended): a valid token carrying an extra claim is
refreshed into a token with only the subject, and an invalid token yields
the refresh error. -/
theorem c5_refresh_minimal_trust_witness :
    refresh_token "s" ⟨⟨some "alice", some 100, none, [("role", "boss")]⟩, "s"⟩ 7
      = .ok ⟨⟨some "alice", some (7 + accessTokenExpireMinutes * 60), some 7, []⟩, "s"⟩
    ∧ refresh_token "s" ⟨⟨some "alice", some 100, none, []⟩, "bad"⟩ 0
      = .error refreshError :=
  ⟨(c5_refresh_minimal_trust "s" ⟨⟨some "alice", some 100, none, [("role", "boss")]⟩, "s"⟩ 7).1
      ⟨some "alice", some 100, none, [("role", "boss")]⟩ rfl,
   (c5_refresh_minimal_trust "s" ⟨⟨some "alice", some 100, none, []⟩, "bad"⟩ 0).2
      invalidCredentialsError rfl⟩

/-- C6: the Access Policy admin check on an identity record (the username
field plus the directory record's admin flag when a record exists) accepts
iff the username is the fixed superuser name "admin" or the admin flag is
set; in particular the identity with username "admin" and no directory
record (hence no is_admin field) is accepted — the hardcoded superuser
bypass — while any other identity with a failed directory lookup is
rejected with 403 (fail closed). -/
theorem c6_access_policy_admin_check (u : String) (flag : Option Bool) :
    ((get_current_admin_user
        (("username", Value.str u) ::
          (flag.map (fun b => ("is_admin", Value.bool b))).toList)).isOk = true
      ↔ (u = "admin" ∨ flag.getD false = true))
    ∧ get_current_admin_user [("username", Value.str "admin")]
        = .ok [("username", Value.str "admin")]
    ∧ (u ≠ "admin" →
        get_current_admin_user [("username", Value.str u)]
          = .error adminForbiddenError) := by
  refine ⟨?_, rfl, ?_⟩
  · by_cases hu : u = "admin" <;> cases flag <;>
      simp [get_current_admin_user, List.lookup, truthy, hu, Except.isOk, Except.toBool]
    · rename_i b
      cases b <;> simp
  · intro hu
    simp [get_current_admin_user, List.lookup, truthy, hu]

/-- Witness for C6: a regular user with no record is rejected, and a
directory-backed non-admin user with the flag set is accepted. -/
theorem c6_access_policy_admin_check_witness :
    get_current_admin_user [("username", Value.str "alice")]
      = .error adminForbiddenError
    ∧ ((get_current_admin_user
          [("username", Value.str "bob"), ("is_admin", Value.bool true)]).isOk = true
        ↔ ("bob" = "admin" ∨ (some true).getD false = true)) :=
  ⟨(c6_access_policy_admin_check "alice" none).2.2 (by decide),
   (c6_access_policy_admin_check "bob" (some true)).1⟩

/-- C7: a failed login with an existing username but wrong password and a
failed login with a nonexistent username produce the identical generic
401 "Incorrect username or password" — the response never reveals whether
the username exists. -/
theorem c7_login_identical_failure (bcryptMatches : String → String → Bool)
    (db : List UserDoc) (secretKey : String) (now : Int)
    (u1 p1 u2 p2 : String) (r : UserDoc) (hashed : String)
    (h1 : find_by_username db u1 = some r)
    (h2 : r.lookup "password" = some (Value.str hashed))
    (h3 : bcryptMatches p1 hashed = false)
    (h4 : find_by_username db u2 = none) :
    login bcryptMatches db secretKey now u1 p1 = .error incorrectCredentialsError
    ∧ login bcryptMatches db secretKey now u2 p2 = .error incorrectCredentialsError := by
  constructor
  · have ha : authenticate_user bcryptMatches db u1 p1 = none := by
      unfold authenticate_user
      rw [h1]
      dsimp only
      rw [h2]
      dsimp only
      unfold verify_password
      rw [h3]
      cases hb : bcryptIdentify hashed <;> simp [hb]
    simp [login, ha]
  · have ha : authenticate_user bcryptMatches db u2 p2 = none := by
      unfold authenticate_user
      rw [h4]
    simp [login, ha]

/-- Witness for C7: one user directory, a wrong password for the stored
user "alice" and the unknown username "bob" draw the same response. -/
theorem c7_login_identical_failure_witness :
    login (fun _ _ => false)
        [[("username", Value.str "alice"), ("password", Value.str "$2b$12$h")]]
        "s" 0 "alice" "wrong" = .error incorrectCredentialsError
    ∧ login (fun _ _ => false)
        [[("username", Value.str "alice"), ("password", Value.str "$2b$12$h")]]
        "s" 0 "bob" "whatever" = .error incorrectCredentialsError :=
  c7_login_identical_failure (fun _ _ => false)
    [[("username", Value.str "alice"), ("password", Value.str "$2b$12$h")]]
    "s" 0 "alice" "wrong" "bob" "whatever"
    [("username", Value.str "alice"), ("password", Value.str "$2b$12$h")]
    "$2b$12$h" rfl rfl rfl rfl

/-- C8: no operation returning a user record to a caller includes the
stored password hash — the per-request identity extraction, the list-all
operation, and the admin user-by-name lookup all return records whose
password field is absent. -/
theorem c8_no_password_in_results (secretKey : String) (db : List UserDoc)
    (tok : Token) (now : Int) (username : String) :
    (∀ user, get_current_user secretKey db tok now = .ok user →
      user.lookup "password" = none)
    ∧ (∀ doc ∈ get_all_users db, doc.lookup "password" = none)
    ∧ (∀ user, get_user_by_username_endpoint db username = .ok user →
      user.lookup "password" = none) := by
  refine ⟨?_, ?_, ?_⟩
  · intro user h
    unfold get_current_user at h
    cases hv : verify_token secretKey tok now with
    | error e =>
      rw [hv] at h
      exact absurd h (by simp)
    | ok payload =>
      rw [hv] at h
      dsimp only at h
      cases hs : payload.sub with
      | none =>
        rw [hs] at h
        exact absurd h (by simp)
      | some un =>
        rw [hs] at h
        dsimp only at h
        cases hf : find_by_username db un with
        | none =>
          rw [hf] at h
          exact absurd h (by simp)
        | some u0 =>
          rw [hf] at h
          dsimp only at h
          injection h with h
          rw [← h]
          exact lookup_filter_ne u0 "password"
  · intro doc hdoc
    unfold get_all_users at hdoc
    obtain ⟨d0, _, rfl⟩ := List.mem_map.mp hdoc
    exact lookup_filter_ne d0 "password"
  · intro user h
    unfold get_user_by_username_endpoint at h
    cases hf : find_by_username db username with
    | none =>
      rw [hf] at h
      exact absurd h (by simp)
    | some u0 =>
      rw [hf] at h
      dsimp only at h
      injection h with h
      rw [← h]
      exact lookup_filter_ne u0 "password"

/-- Witness for C8 on a concrete directory holding a password hash: all
three result records lack the password field. -/
theorem c8_no_password_in_results_witness :
    List.lookup "password"
        [("username", Value.str "alice"), ("is_admin", Value.bool false)] = none
    ∧ List.lookup "password"
        [("username", Value.str "alice"), ("is_admin", Value.bool false)] = none
    ∧ List.lookup "password"
        [("username", Value.str "alice"), ("is_admin", Value.bool false)] = none :=
  ⟨(c8_no_password_in_results "s"
      [[("username", Value.str "alice"), ("password", Value.str "$2b$h"),
        ("is_admin", Value.bool false)]]
      ⟨⟨some "alice", some 100, none, []⟩, "s"⟩ 0 "alice").1
      [("username", Value.str "alice"), ("is_admin", Value.bool false)] rfl,
   (c8_no_password_in_results "s"
      [[("username", Value.str "alice"), ("password", Value.str "$2b$h"),
        ("is_admin", Value.bool false)]]
      ⟨⟨some "alice", some 100, none, []⟩, "s"⟩ 0 "alice").2.1
      [("username", Value.str "alice"), ("is_admin", Value.bool false)] (by decide),
   (c8_no_password_in_results "s"
      [[("username", Value.str "alice"), ("password", Value.str "$2b$h"),
        ("is_admin", Value.bool false)]]
      ⟨⟨some "alice", some 100, none, []⟩, "s"⟩ 0 "alice").2.2
      [("username", Value.str "alice"), ("is_admin", Value.bool false)] rfl⟩

/-- C9 counterexample: verify_password on a malformed hash string raises
(passlib UnknownHashError escapes the uncaught pwd_context.verify call)
instead of returning false, refuting the claim that every malformed hash
yields false rather than a throw. -/
theorem c9_counterexample_malformed_hash_raises :
    verify_password (fun _ _ => false) "candidate" "not-a-hash" = .raised
    ∧ PasslibResult.raised ≠ PasslibResult.ok false :=
  ⟨by decide, by decide⟩

/-- C9 (amended): for a stored hash that the configured bcrypt scheme
identifies, a merely-wrong password returns false and never raises; a
malformed (unidentified) hash string instead raises. -/
theorem c9_wrong_password_returns_false (bcryptMatches : String → String → Bool)
    (plain hashed : String) (hid : bcryptIdentify hashed = true)
    (hm : bcryptMatches plain hashed = false) :
    verify_password bcryptMatches plain hashed = .ok false
    ∧ verify_password bcryptMatches plain hashed ≠ .raised := by
  constructor
  · simp [verify_password, hid, hm]
  · simp [verify_password, hid, hm]

/-- Witness for C9 (amended) on a well-formed bcrypt hash and a mismatching
password. -/
theorem c9_wrong_password_returns_false_witness :
    bcryptIdentify "$2b$12$abcdefghijklmnopqrstuv" = true
    ∧ verify_password (fun _ _ => false) "wrong" "$2b$12$abcdefghijklmnopqrstuv"
        = .ok false :=
  ⟨by decide,
   (c9_wrong_password_returns_false (fun _ _ => false) "wrong"
      "$2b$12$abcdefghijklmnopqrstuv" (by decide) rfl).1⟩

/-- C10: a correctly signed, unexpired token whose subject has no record
in the user directory does not establish an identity — the per-request
identity extraction fails with the 401 credentials exception. -/
theorem c10_unknown_subject_unauthorized (secretKey : String) (db : List UserDoc)
    (tok : Token) (now : Int) (u : String) (eVal : Int)
    (hk : tok.key = secretKey) (hs : tok.claims.sub = some u)
    (he : tok.claims.exp = some eVal) (hfresh : now ≤ eVal)
    (hdb : find_by_username db u = none) :
    get_current_user secretKey db tok now = .error credentialsException := by
  have h1 : ¬ (eVal < now) := by omega
  have h2 : ¬ (now > eVal) := by omega
  have hv : verify_token secretKey tok now = .ok tok.claims := by
    simp [verify_token, joseDecode, hk, he, hs, h1, h2]
  simp [get_current_user, hv, hs, hdb]

/-- Witness for C10: a valid token for the unknown subject "ghost" against
an empty directory. -/
theorem c10_unknown_subject_unauthorized_witness :
    get_current_user "s" [] ⟨⟨some "ghost", some 100, none, []⟩, "s"⟩ 0
      = .error credentialsException :=
  c10_unknown_subject_unauthorized "s" [] ⟨⟨some "ghost", some 100, none, []⟩, "s"⟩
    0 "ghost" 100 rfl rfl rfl (by decide) rfl

end RagJwt
